import Mathlib

/-!
A verification development for `comProxy.cpp`, a Win32 console program that
copies bytes between stdin/stdout and a COM port.  The C++ data structures and
control flow are shallowly embedded as executable Lean definitions: the
`RingBuffer` class with its index arithmetic and event (signal) updates, the
stdin-reader and stdout-writer pump loops, the `comRx` polling step, the main
coordinator loop's exit test and wait dispatch, and the startup sequence of
`main`.  DWORD values are modelled as `Nat` (with explicit two's-complement
conversion where an `int` result is stored into a DWORD); Win32 events are
modelled as `Bool` fields updated exactly where the code calls `SetEvent` /
`ResetEvent`.
-/

set_option maxHeartbeats 1600000

namespace ComProxy

/-- Win32 `ERROR_SUCCESS` (0). -/
def ERROR_SUCCESS : Nat := 0

/-- Win32 `ERROR_IO_PENDING` (997). -/
def ERROR_IO_PENDING : Nat := 997

/-- Win32 `ERROR_IO_INCOMPLETE` (996). -/
def ERROR_IO_INCOMPLETE : Nat := 996

/-- Conversion of a C `int` result (such as the return value of `_read` or
`_write`) into a `DWORD`: two's-complement reduction modulo `2^32`. -/
def dwordOfInt (i : Int) : Nat := (i % ((2:Int) ^ 32)).toNat

/-- The state of a `RingBuffer` object: `bufferSize` is `capacity + 1`
(one slot sacrificed to distinguish empty from full), `dataIndex` is the index
of the first data byte, `spaceIndex` the index of the first empty byte.
`notFull` and `notEmpty` are the states of the two manual-reset events
(the `hasSpace` / `hasData` signals). -/
structure RingBuffer where
  bufferSize : Nat
  dataIndex : Nat
  spaceIndex : Nat
  notFull : Bool
  notEmpty : Bool
deriving DecidableEq, Repr

/-- A freshly constructed `RingBuffer(capacity)`: both indices 0, `notFull`
created signaled, `notEmpty` created unsignaled. -/
def RingBuffer.mk0 (capacity : Nat) : RingBuffer :=
  { bufferSize := capacity + 1, dataIndex := 0, spaceIndex := 0,
    notFull := true, notEmpty := false }

/-- `RingBuffer::findData`: the length of the contiguous run of data starting
at `dataIndex`. -/
def RingBuffer.findData (b : RingBuffer) : Nat :=
  if b.dataIndex ≤ b.spaceIndex then b.spaceIndex - b.dataIndex
  else b.bufferSize - b.dataIndex

/-- `RingBuffer::findSpace`: the length of the contiguous run of free slots
starting at `spaceIndex` (keeping one slot in reserve when `dataIndex == 0`). -/
def RingBuffer.findSpace (b : RingBuffer) : Nat :=
  if b.dataIndex ≤ b.spaceIndex then
    b.bufferSize - b.spaceIndex - (if b.dataIndex = 0 then 1 else 0)
  else b.dataIndex - b.spaceIndex - 1

/-- Total number of occupied bytes, `(spaceIndex - dataIndex) mod bufferSize`. -/
def RingBuffer.occupancy (b : RingBuffer) : Nat :=
  if b.dataIndex ≤ b.spaceIndex then b.spaceIndex - b.dataIndex
  else b.bufferSize + b.spaceIndex - b.dataIndex

/-- The capacity the buffer was constructed with (`bufferSize - 1`). -/
def RingBuffer.capacity (b : RingBuffer) : Nat := b.bufferSize - 1

/-- Well-formedness of a `RingBuffer` state: both indices lie inside the
backing array and the capacity is at least 1.  This holds for the buffers the
program constructs and is preserved by `addData` / `removeData`. -/
def RingBuffer.WF (b : RingBuffer) : Prop :=
  1 < b.bufferSize ∧ b.dataIndex < b.bufferSize ∧ b.spaceIndex < b.bufferSize

instance (b : RingBuffer) : Decidable b.WF := by
  unfold RingBuffer.WF; infer_instance

/-- A log line emitted while mutating a buffer. -/
inductive LogEvent
  | overrun (count available : Nat)
  | underrun (count available : Nat)
deriving DecidableEq, Repr

/-- `RingBuffer::addData(count)`: when `count > 0`, clamp to `findSpace()`
(logging a buffer overrun if the caller over-requested), advance `spaceIndex`
with wraparound, `SetEvent(notEmpty)`, and `ResetEvent(notFull)` when the
updated `findSpace()` is zero.  Returns the new state and the anomaly log
line, if any. -/
def RingBuffer.addData (b : RingBuffer) (count : Nat) : RingBuffer × Option LogEvent :=
  if count = 0 then (b, none)
  else
    let space := b.findSpace
    let toAdd := if space < count then space else count
    let si0 := b.spaceIndex + toAdd
    let si := if si0 = b.bufferSize then 0 else si0
    let b1 : RingBuffer := { b with spaceIndex := si, notEmpty := true }
    let b2 : RingBuffer := if b1.findSpace = 0 then { b1 with notFull := false } else b1
    (b2, if space < count then some (LogEvent.overrun count space) else none)

/-- `RingBuffer::removeData(count)`: when `count > 0`, clamp to `findData()`
(logging a buffer underrun if the caller over-requested), advance `dataIndex`
with wraparound, `SetEvent(notFull)`, and `ResetEvent(notEmpty)` when the
updated `findData()` is zero. -/
def RingBuffer.removeData (b : RingBuffer) (count : Nat) : RingBuffer × Option LogEvent :=
  if count = 0 then (b, none)
  else
    let dat := b.findData
    let toRemove := if dat < count then dat else count
    let di0 := b.dataIndex + toRemove
    let di := if di0 = b.bufferSize then 0 else di0
    let b1 : RingBuffer := { b with dataIndex := di, notFull := true }
    let b2 : RingBuffer := if b1.findData = 0 then { b1 with notEmpty := false } else b1
    (b2, if dat < count then some (LogEvent.underrun count dat) else none)

/-- `findData` is zero exactly when the buffer is empty. -/
theorem RingBuffer.findData_eq_zero_iff (b : RingBuffer) (h : b.WF) :
    b.findData = 0 ↔ b.occupancy = 0 := by
  obtain ⟨h1, h2, h3⟩ := h
  unfold RingBuffer.findData RingBuffer.occupancy
  split_ifs <;> omega

/-- `findSpace` is zero exactly when the buffer is full. -/
theorem RingBuffer.findSpace_eq_zero_iff (b : RingBuffer) (h : b.WF) :
    b.findSpace = 0 ↔ b.occupancy = b.capacity := by
  obtain ⟨h1, h2, h3⟩ := h
  unfold RingBuffer.findSpace RingBuffer.occupancy RingBuffer.capacity
  split_ifs <;> omega

/-- The contiguous data run never exceeds the occupancy. -/
theorem RingBuffer.findData_le_occupancy (b : RingBuffer) (h : b.WF) :
    b.findData ≤ b.occupancy := by
  obtain ⟨h1, h2, h3⟩ := h
  unfold RingBuffer.findData RingBuffer.occupancy
  split_ifs <;> omega

/-- The contiguous free run never exceeds the total free capacity. -/
theorem RingBuffer.findSpace_le_free (b : RingBuffer) (h : b.WF) :
    b.findSpace ≤ b.capacity - b.occupancy := by
  obtain ⟨h1, h2, h3⟩ := h
  unfold RingBuffer.findSpace RingBuffer.occupancy RingBuffer.capacity
  split_ifs <;> omega

/-- Occupancy is bounded by the capacity. -/
theorem RingBuffer.occupancy_le_capacity (b : RingBuffer) (h : b.WF) :
    b.occupancy ≤ b.capacity := by
  obtain ⟨h1, h2, h3⟩ := h
  unfold RingBuffer.occupancy RingBuffer.capacity
  split_ifs <;> omega

/-- `addData` preserves well-formedness and the buffer size, and increases the
occupancy by exactly the clamped count. -/
theorem RingBuffer.addData_spec (b : RingBuffer) (n : Nat) (h : b.WF) :
    (b.addData n).1.WF ∧ (b.addData n).1.bufferSize = b.bufferSize
    ∧ (b.addData n).1.occupancy
        = b.occupancy + (if b.findSpace < n then b.findSpace else n) := by
  obtain ⟨h1, h2, h3⟩ := h
  rcases b with ⟨B, d, s, nf, ne⟩
  dsimp only at h1 h2 h3
  by_cases hn : n = 0
  · subst hn
    simp [RingBuffer.addData, RingBuffer.WF]
    omega
  · rw [RingBuffer.addData, if_neg hn]
    dsimp only
    unfold RingBuffer.findSpace RingBuffer.occupancy RingBuffer.WF
    dsimp only
    split_ifs <;> dsimp only <;> omega

/-- `removeData` preserves well-formedness and the buffer size, and decreases
the occupancy by exactly the clamped count. -/
theorem RingBuffer.removeData_spec (b : RingBuffer) (n : Nat) (h : b.WF) :
    (b.removeData n).1.WF ∧ (b.removeData n).1.bufferSize = b.bufferSize
    ∧ (b.removeData n).1.occupancy
        = b.occupancy - (if b.findData < n then b.findData else n) := by
  obtain ⟨h1, h2, h3⟩ := h
  rcases b with ⟨B, d, s, nf, ne⟩
  dsimp only at h1 h2 h3
  by_cases hn : n = 0
  · subst hn
    simp [RingBuffer.removeData, RingBuffer.WF]
    omega
  · rw [RingBuffer.removeData, if_neg hn]
    dsimp only
    unfold RingBuffer.findData RingBuffer.occupancy RingBuffer.WF
    dsimp only
    split_ifs <;> dsimp only <;> omega

/-- Committing `n` bytes into a freshly constructed queue (with `1 ≤ n ≤ C`)
moves `spaceIndex` to `n`, signals `notEmpty`, and resets `notFull` exactly
when the queue became full. -/
theorem RingBuffer.addData_mk0 (C n : Nat) (h1 : 1 ≤ n) (h2 : n ≤ C) :
    ((RingBuffer.mk0 C).addData n).1
      = ⟨C + 1, 0, n, if C - n = 0 then false else true, true⟩ := by
  unfold RingBuffer.mk0 RingBuffer.addData RingBuffer.findSpace
  dsimp only
  split_ifs <;> simp_all <;> omega

/-- Consuming the same `n` bytes then moves `dataIndex` to `n`, signals
`notFull`, and resets `notEmpty` (the queue is empty again). -/
theorem RingBuffer.removeData_after (C n : Nat) (f : Bool) (h1 : 1 ≤ n) (h2 : n ≤ C) :
    ((⟨C + 1, 0, n, f, true⟩ : RingBuffer).removeData n).1
      = ⟨C + 1, n, n, true, false⟩ := by
  unfold RingBuffer.removeData RingBuffer.findData
  dsimp only
  split_ifs <;> simp_all <;> omega

/-- After `addData` with a positive count, `notEmpty` is signaled, and
`notFull` was reset exactly when the updated `findSpace()` is zero. -/
theorem RingBuffer.addData_fields (b : RingBuffer) (n : Nat) (hn : n ≠ 0) :
    (b.addData n).1.notEmpty = true
    ∧ (b.addData n).1.notFull
        = (if (b.addData n).1.findSpace = 0 then false else b.notFull) := by
  rw [RingBuffer.addData, if_neg hn]
  dsimp only
  split_ifs <;> simp_all [RingBuffer.findSpace]

/-- After `removeData` with a positive count, `notFull` is signaled, and
`notEmpty` was reset exactly when the updated `findData()` is zero. -/
theorem RingBuffer.removeData_fields (b : RingBuffer) (n : Nat) (hn : n ≠ 0) :
    (b.removeData n).1.notFull = true
    ∧ (b.removeData n).1.notEmpty
        = (if (b.removeData n).1.findData = 0 then false else b.notEmpty) := by
  rw [RingBuffer.removeData, if_neg hn]
  dsimp only
  split_ifs <;> simp_all [RingBuffer.findData]

/-- The signal/occupancy consistency property: the `notEmpty` (`hasData`)
event is set iff the occupancy is positive, and the `notFull` (`hasSpace`)
event is set iff the occupancy is below the capacity. -/
def RingBuffer.signalInv (b : RingBuffer) : Prop :=
  (b.notEmpty = true ↔ 0 < b.occupancy)
  ∧ (b.notFull = true ↔ b.occupancy < b.capacity)

instance (b : RingBuffer) : Decidable b.signalInv := by
  unfold RingBuffer.signalInv; infer_instance

/-- `addData` preserves signal/occupancy consistency. -/
theorem RingBuffer.signalInv_addData (b : RingBuffer) (n : Nat) (h : b.WF)
    (hinv : b.signalInv) : (b.addData n).1.signalInv := by
  by_cases hn : n = 0
  · subst hn
    rw [RingBuffer.addData, if_pos rfl]
    exact hinv
  · obtain ⟨hwf', hbs, hocc⟩ := b.addData_spec n h
    obtain ⟨hne, hnf⟩ := RingBuffer.addData_fields b n hn
    obtain ⟨ine, inf⟩ := hinv
    have hfz := RingBuffer.findSpace_eq_zero_iff _ hwf'
    have hsz := RingBuffer.findSpace_eq_zero_iff _ h
    have hle := RingBuffer.findSpace_le_free _ h
    have hoc := RingBuffer.occupancy_le_capacity _ h
    have hoc' := RingBuffer.occupancy_le_capacity _ hwf'
    have hcap : (b.addData n).1.capacity = b.capacity := by
      unfold RingBuffer.capacity
      omega
    have hcap1 : 1 ≤ b.capacity := by
      obtain ⟨w1, w2, w3⟩ := h
      unfold RingBuffer.capacity
      omega
    rw [hcap] at hfz hoc'
    unfold RingBuffer.signalInv
    rw [hne, hnf]
    rcases Nat.lt_or_ge b.findSpace n with hcl | hcl
    · rw [if_pos hcl] at hocc
      constructor
      · simp only [eq_self_iff_true, true_iff]
        omega
      · split_ifs with hz'
        · simp only [Bool.false_eq_true, false_iff]
          omega
        · rw [inf]
          omega
    · rw [if_neg (by omega : ¬ b.findSpace < n)] at hocc
      constructor
      · simp only [eq_self_iff_true, true_iff]
        omega
      · split_ifs with hz'
        · simp only [Bool.false_eq_true, false_iff]
          omega
        · rw [inf]
          omega

/-- `removeData` preserves signal/occupancy consistency. -/
theorem RingBuffer.signalInv_removeData (b : RingBuffer) (n : Nat) (h : b.WF)
    (hinv : b.signalInv) : (b.removeData n).1.signalInv := by
  by_cases hn : n = 0
  · subst hn
    rw [RingBuffer.removeData, if_pos rfl]
    exact hinv
  · obtain ⟨hwf', hbs, hocc⟩ := b.removeData_spec n h
    obtain ⟨hnf, hne⟩ := RingBuffer.removeData_fields b n hn
    obtain ⟨ine, inf⟩ := hinv
    have hfz := RingBuffer.findData_eq_zero_iff _ hwf'
    have hdz := RingBuffer.findData_eq_zero_iff _ h
    have hdle := RingBuffer.findData_le_occupancy _ h
    have hoc := RingBuffer.occupancy_le_capacity _ h
    have hoc' := RingBuffer.occupancy_le_capacity _ hwf'
    have hcap : (b.removeData n).1.capacity = b.capacity := by
      unfold RingBuffer.capacity
      omega
    have hcap1 : 1 ≤ b.capacity := by
      obtain ⟨w1, w2, w3⟩ := h
      unfold RingBuffer.capacity
      omega
    rw [hcap] at hoc'
    unfold RingBuffer.signalInv
    rw [hne, hnf]
    rcases Nat.lt_or_ge b.findData n with hcl | hcl
    · rw [if_pos hcl] at hocc
      refine ⟨?_, by simp only [eq_self_iff_true, true_iff]; omega⟩
      split_ifs with hz'
      · simp only [Bool.false_eq_true, false_iff]
        omega
      · rw [ine]
        omega
    · rw [if_neg (by omega : ¬ b.findData < n)] at hocc
      refine ⟨?_, by simp only [eq_self_iff_true, true_iff]; omega⟩
      split_ifs with hz'
      · simp only [Bool.false_eq_true, false_iff]
        omega
      · rw [ine]
        omega

/-- A freshly constructed buffer satisfies signal/occupancy consistency:
`notFull` is created signaled, `notEmpty` created unsignaled. -/
theorem RingBuffer.signalInv_mk0 (C : Nat) (hC : 1 ≤ C) :
    (RingBuffer.mk0 C).signalInv := by
  unfold RingBuffer.signalInv RingBuffer.mk0 RingBuffer.occupancy RingBuffer.capacity
  simp
  omega

/-- The `ResetEvent(rxBuffer.notFull)` performed at the top of `comRx`
(line 400), before any queue mutation. -/
def comRxResetNotFull (b : RingBuffer) : RingBuffer := { b with notFull := false }

/-- The `ResetEvent(txBuffer.notEmpty)` performed at the top of `comTx`
(line 459), before any queue mutation. -/
def comTxResetNotEmpty (b : RingBuffer) : RingBuffer := { b with notEmpty := false }

/-- C5 fails as stated: the signal/occupancy consistency is not an invariant
of every operation of the program that touches the queues.  After `comRx` has
read one byte into the (previously empty) capacity-128 receive buffer, the
state satisfies the consistency property, but the unconditional
`ResetEvent(rxBuffer.notFull)` at the top of `comRx` clears `hasSpace` while
the occupancy (1) is far below the capacity (128); symmetrically for the
`ResetEvent(txBuffer.notEmpty)` at the top of `comTx`. -/
theorem c5_signal_invariant_counterexample :
    ((RingBuffer.mk0 128).addData 1).1.signalInv
    ∧ ((RingBuffer.mk0 128).addData 1).1.WF
    ∧ ¬ (comRxResetNotFull ((RingBuffer.mk0 128).addData 1).1).signalInv
    ∧ ¬ (comTxResetNotEmpty ((RingBuffer.mk0 128).addData 1).1).signalInv := by
  decide

/-- C5 (amended): after any index mutation performed by the queue's own
operations (`addData` / `removeData`), `notEmpty` is set iff the occupancy is
positive and `notFull` is set iff the occupancy is below the capacity, with
the signal update performed in the same critical section as the index update;
the property also holds of a freshly constructed queue.  (It is not preserved
by `comRx` / `comTx`, which reset `rxBuffer.notFull` / `txBuffer.notEmpty`
unconditionally on entry, outside any index mutation.) -/
theorem c5_signal_occupancy_invariant (b : RingBuffer) (n : Nat) (h : b.WF)
    (hinv : b.signalInv) :
    (b.addData n).1.signalInv ∧ (b.removeData n).1.signalInv
    ∧ (∀ C : Nat, 1 ≤ C → (RingBuffer.mk0 C).signalInv) :=
  ⟨b.signalInv_addData n h hinv, b.signalInv_removeData n h hinv,
   fun C hC => RingBuffer.signalInv_mk0 C hC⟩

/-- Witness for C5 (amended) at the initial capacity-128 buffer and `n = 1`. -/
theorem c5_signal_occupancy_invariant_witness :
    (RingBuffer.mk0 128).WF ∧ (RingBuffer.mk0 128).signalInv
    ∧ (((RingBuffer.mk0 128).addData 1).1.signalInv
      ∧ ((RingBuffer.mk0 128).removeData 1).1.signalInv
      ∧ (∀ C : Nat, 1 ≤ C → (RingBuffer.mk0 C).signalInv)) :=
  ⟨by decide, by decide,
   c5_signal_occupancy_invariant (RingBuffer.mk0 128) 1 (by decide) (by decide)⟩

/-- C9: in every well-formed `RingBuffer` state, `findData` (= `hasData`)
returns 0 exactly when the occupancy is 0 and `findSpace` (= `hasSpace`)
returns 0 exactly when the occupancy equals the capacity; both report only the
contiguous run starting at the current index, which is bounded by — and for
some states strictly smaller than — the total occupancy (respectively the
total free space). -/
theorem c9_contiguous_run_semantics (b : RingBuffer) (h : b.WF) :
    (b.findData = 0 ↔ b.occupancy = 0)
    ∧ (b.findSpace = 0 ↔ b.occupancy = b.capacity)
    ∧ b.findData ≤ b.occupancy
    ∧ b.findSpace ≤ b.capacity - b.occupancy
    ∧ (∃ c : RingBuffer, c.WF ∧ c.findData < c.occupancy)
    ∧ (∃ c : RingBuffer, c.WF ∧ c.findSpace < c.capacity - c.occupancy) :=
  ⟨b.findData_eq_zero_iff h, b.findSpace_eq_zero_iff h,
   b.findData_le_occupancy h, b.findSpace_le_free h,
   ⟨⟨3, 2, 1, true, true⟩, by decide, by decide⟩,
   ⟨⟨4, 2, 2, true, false⟩, by decide, by decide⟩⟩

/-- Witness for C9 at the concrete initial receive buffer of the program. -/
theorem c9_contiguous_run_semantics_witness :
    (RingBuffer.mk0 128).WF
    ∧ (((RingBuffer.mk0 128).findData = 0 ↔ (RingBuffer.mk0 128).occupancy = 0)
      ∧ ((RingBuffer.mk0 128).findSpace = 0
          ↔ (RingBuffer.mk0 128).occupancy = (RingBuffer.mk0 128).capacity)
      ∧ (RingBuffer.mk0 128).findData ≤ (RingBuffer.mk0 128).occupancy
      ∧ (RingBuffer.mk0 128).findSpace
          ≤ (RingBuffer.mk0 128).capacity - (RingBuffer.mk0 128).occupancy
      ∧ (∃ c : RingBuffer, c.WF ∧ c.findData < c.occupancy)
      ∧ (∃ c : RingBuffer, c.WF ∧ c.findSpace < c.capacity - c.occupancy)) :=
  ⟨by decide, c9_contiguous_run_semantics (RingBuffer.mk0 128) (by decide)⟩

/-- C3 fails as stated: with capacity `C = 2` and `n = 2`, committing then
consuming 2 bytes on an initially empty queue leaves `availableSpace() = 1`,
not `C = 2` (the contiguous free run no longer spans the whole backing
array). -/
theorem c3_roundtrip_counterexample :
    (1 ≤ 2 ∧ 2 ≤ 2)
    ∧ ¬ ((((RingBuffer.mk0 2).addData 2).1.removeData 2).1.findData = 0
        ∧ (((RingBuffer.mk0 2).addData 2).1.removeData 2).1.findSpace = 2) := by
  decide

/-- C3 (amended): for every capacity `C ≥ 1` and `n ≤ C`, `addData n` then
`removeData n` on an initially empty queue leaves the queue empty
(`availableData() = 0`), but `availableSpace()` is the contiguous run
`C + 1 - n` when `n ≥ 2` (and `C` when `n ≤ 1`). -/
theorem c3_roundtrip (C n : Nat) (hC : 1 ≤ C) (hn : n ≤ C) :
    (((RingBuffer.mk0 C).addData n).1.removeData n).1.findData = 0
    ∧ (((RingBuffer.mk0 C).addData n).1.removeData n).1.findSpace
        = (if n ≤ 1 then C else C + 1 - n) := by
  by_cases hn0 : n = 0
  · subst hn0
    simp [RingBuffer.mk0, RingBuffer.addData, RingBuffer.removeData,
      RingBuffer.findData, RingBuffer.findSpace]
  · rw [RingBuffer.addData_mk0 C n (by omega) hn,
        RingBuffer.removeData_after C n _ (by omega) hn]
    unfold RingBuffer.findData RingBuffer.findSpace
    dsimp only
    split_ifs <;> omega

/-- Witness for C3 (amended) at `C = 3`, `n = 2`. -/
theorem c3_roundtrip_witness :
    1 ≤ 3 ∧ 2 ≤ 3
    ∧ ((((RingBuffer.mk0 3).addData 2).1.removeData 2).1.findData = 0
      ∧ (((RingBuffer.mk0 3).addData 2).1.removeData 2).1.findSpace
          = (if 2 ≤ 1 then 3 else 3 + 1 - 2)) :=
  ⟨by decide, by decide, c3_roundtrip 3 2 (by decide) (by decide)⟩

/-- C4 fails as stated: in the `C = 4` scenario, after committing 3 bytes and
consuming 2, `availableSpace()` is 2, not 3. -/
theorem c4_scenario_counterexample :
    ¬ (((RingBuffer.mk0 4).addData 3).1.findData = 3
      ∧ ((RingBuffer.mk0 4).addData 3).1.findSpace = 1
      ∧ (((RingBuffer.mk0 4).addData 3).1.removeData 2).1.findData = 1
      ∧ (((RingBuffer.mk0 4).addData 3).1.removeData 2).1.findSpace = 3) := by
  decide

/-- C4 (amended): on a capacity-4 queue that starts empty, after committing 3
bytes `availableData() = 3` and `availableSpace() = 1`; after then consuming
2 bytes `availableData() = 1` and `availableSpace() = 2` (the free region
wraps, so the contiguous run is 2, not 3). -/
theorem c4_scenario :
    ((RingBuffer.mk0 4).addData 3).1.findData = 3
    ∧ ((RingBuffer.mk0 4).addData 3).1.findSpace = 1
    ∧ (((RingBuffer.mk0 4).addData 3).1.removeData 2).1.findData = 1
    ∧ (((RingBuffer.mk0 4).addData 3).1.removeData 2).1.findSpace = 2 := by
  decide

/-- C7: calling `addData n` with `n` greater than `availableSpace()` logs a
buffer-overrun anomaly, commits exactly `availableSpace()` bytes, and leaves a
well-formed state (both indices within `[0, C+1)`) with the buffer size
unchanged. -/
theorem c7_overrun_clamps (b : RingBuffer) (n : Nat) (hwf : b.WF)
    (hover : b.findSpace < n) :
    (b.addData n).2 = some (LogEvent.overrun n b.findSpace)
    ∧ (b.addData n).1.occupancy = b.occupancy + b.findSpace
    ∧ (b.addData n).1.WF
    ∧ (b.addData n).1.bufferSize = b.bufferSize := by
  obtain ⟨hs, hb, ho⟩ := b.addData_spec n hwf
  refine ⟨?_, ?_, hs, hb⟩
  · rw [RingBuffer.addData, if_neg (by omega : ¬ n = 0)]
    dsimp only
    rw [if_pos hover]
  · rw [ho, if_pos hover]

/-- Witness for C7: `addData 5` on an empty capacity-2 queue. -/
theorem c7_overrun_clamps_witness :
    (RingBuffer.mk0 2).WF ∧ (RingBuffer.mk0 2).findSpace < 5
    ∧ (((RingBuffer.mk0 2).addData 5).2
        = some (LogEvent.overrun 5 (RingBuffer.mk0 2).findSpace)
      ∧ ((RingBuffer.mk0 2).addData 5).1.occupancy
          = (RingBuffer.mk0 2).occupancy + (RingBuffer.mk0 2).findSpace
      ∧ ((RingBuffer.mk0 2).addData 5).1.WF
      ∧ ((RingBuffer.mk0 2).addData 5).1.bufferSize = (RingBuffer.mk0 2).bufferSize) :=
  ⟨by decide, by decide, c7_overrun_clamps (RingBuffer.mk0 2) 5 (by decide) (by decide)⟩

/-- Possible outcomes of one iteration of a stdio pump loop. -/
inductive PumpOutcome
  | waitSignal
  | errorExit
  | eofExit
  | looped (buf : RingBuffer)
deriving DecidableEq, Repr

/-- One iteration of the `stdinReader` loop (lines 351-371).  `readResult` is
the `int` returned by `_read(stdinNumber, ..., toRead)` (−1 on error); the
code stores it into the DWORD `wasRead`, so the comparison `wasRead < 0` is an
unsigned comparison against the two's-complement image of the result.
`errorExit` is the branch that sets `stdinDone` and returns `errno`;
`eofExit` the branch that sets `stdinDone` and returns 0. -/
def stdinReaderStep (txBuffer : RingBuffer) (readResult : Int) : PumpOutcome :=
  let toRead := txBuffer.findSpace
  if toRead = 0 then PumpOutcome.waitSignal
  else
    let wasRead := dwordOfInt readResult
    if wasRead < 0 then PumpOutcome.errorExit
    else
      let tx1 := (txBuffer.addData wasRead).1
      if wasRead = 0 then PumpOutcome.eofExit else PumpOutcome.looped tx1

/-- One iteration of the `stdoutWriter` loop (lines 373-389).  `writeResult`
is the `int` returned by `_write(stdoutNumber, ..., toWrite)` (−1 on error),
stored into the DWORD `wasWritten`.  `errorExit` is the branch that sets
`stdoutDone` and returns `errno`. -/
def stdoutWriterStep (rxBuffer : RingBuffer) (writeResult : Int) : PumpOutcome :=
  let toWrite := rxBuffer.findData
  if toWrite = 0 then PumpOutcome.waitSignal
  else
    let wasWritten := dwordOfInt writeResult
    if wasWritten < 0 then PumpOutcome.errorExit
    else PumpOutcome.looped (rxBuffer.removeData wasWritten).1

/-- C2: the error branches of both pump loops are unreachable.  `wasRead` and
`wasWritten` are unsigned DWORDs, so `wasRead < 0` and `wasWritten < 0` are
always false; a failing `_read` (returning −1) is treated as a successful
read of 4294967295 bytes, which `addData` clamps (logging an overrun) while
the loop keeps running — `stdinDone` is never set and no non-zero status is
returned; symmetrically for the writer. -/
theorem c2_stream_error_branches_unreachable :
    (∀ (tx : RingBuffer) (r : Int), stdinReaderStep tx r ≠ PumpOutcome.errorExit)
    ∧ (∀ (rx : RingBuffer) (r : Int), stdoutWriterStep rx r ≠ PumpOutcome.errorExit)
    ∧ stdinReaderStep (RingBuffer.mk0 128) (-1)
        = PumpOutcome.looped ((RingBuffer.mk0 128).addData (2 ^ 32 - 1)).1
    ∧ stdoutWriterStep ((RingBuffer.mk0 128).addData 1).1 (-1)
        = PumpOutcome.looped (((RingBuffer.mk0 128).addData 1).1.removeData (2 ^ 32 - 1)).1 := by
  refine ⟨?_, ?_, by decide, by decide⟩
  · intro tx r
    unfold stdinReaderStep
    dsimp only
    split_ifs <;> simp_all
  · intro rx r
    unfold stdoutWriterStep
    dsimp only
    split_ifs <;> simp_all

/-- The coordinator-visible state at the top of a main-loop iteration. -/
structure CoordState where
  rxBuffer : RingBuffer
  txBuffer : RingBuffer
  comRxError : Nat
  comTxError : Nat
  comDone : Bool
  stdinDone : Bool
  stdoutDone : Bool
deriving DecidableEq, Repr

/-- The graceful-exit test evaluated at the top of each main-loop iteration
(lines 639-642), before `WaitForMultipleObjects`:
`(stdoutDone || !rxBuffer.hasData()) && (comDone || (stdinDone && !txBuffer.hasData()))`. -/
def codeExitTest (s : CoordState) : Bool :=
  (s.stdoutDone || s.rxBuffer.findData == 0)
    && (s.comDone || (s.stdinDone && s.txBuffer.findData == 0))

/-- The spec's termination predicate, following its words: (outputDone OR
receive-queue is empty) AND (deviceDone OR (inputDone AND transmit-queue is
empty)), where a queue is empty when its occupancy is zero. -/
def specTermination (s : CoordState) : Prop :=
  (s.stdoutDone = true ∨ s.rxBuffer.occupancy = 0)
  ∧ (s.comDone = true ∨ (s.stdinDone = true ∧ s.txBuffer.occupancy = 0))

instance (s : CoordState) : Decidable (specTermination s) := by
  unfold specTermination; infer_instance

/-- The possible results of `WaitForMultipleObjects(5, waitables, FALSE, 2000)`
as dispatched by the `switch` at lines 644-682: `WAIT_OBJECT_0 + 0..4`,
`WAIT_TIMEOUT`, `WAIT_FAILED`, or any other value. -/
inductive WaitResult
  | comEventSig
  | rxSig
  | txSig
  | rxBufSig
  | txBufSig
  | timeout
  | failed
  | unknown (code : Nat)
deriving DecidableEq, Repr

/-- What one iteration of the main loop does. -/
inductive LoopOutcome
  | exitGraceful
  | runComEvent
  | runComRx
  | runComTx
  | skipWait
  | retry (rx tx : Bool)
  | exitWith (code : Nat)
deriving DecidableEq, Repr

/-- One iteration of the coordinator loop (lines 623-684): evaluate the
graceful-exit test before waiting; otherwise dispatch on the wait result.
`WAIT_OBJECT_0 + 3` (`rxBuffer.notFull`) falls through to a `comRx` call only
when `comRxError == ERROR_SUCCESS`, and `WAIT_OBJECT_0 + 4`
(`txBuffer.notEmpty`) likewise for `comTx`; on `WAIT_TIMEOUT` the retry calls
are guarded by `rxBuffer.hasSpace() && comRxError == ERROR_SUCCESS` and
`txBuffer.hasData() && comTxError == ERROR_SUCCESS`; `WAIT_FAILED` sets exit
code 4, any unrecognized value exit code 5. -/
def loopIter (s : CoordState) (w : WaitResult) : LoopOutcome :=
  if codeExitTest s then LoopOutcome.exitGraceful
  else
    match w with
    | WaitResult.comEventSig => LoopOutcome.runComEvent
    | WaitResult.rxBufSig =>
        if s.comRxError = ERROR_SUCCESS then LoopOutcome.runComRx
        else LoopOutcome.skipWait
    | WaitResult.rxSig => LoopOutcome.runComRx
    | WaitResult.txBufSig =>
        if s.comTxError = ERROR_SUCCESS then LoopOutcome.runComTx
        else LoopOutcome.skipWait
    | WaitResult.txSig => LoopOutcome.runComTx
    | WaitResult.timeout =>
        LoopOutcome.retry
          (decide (0 < s.rxBuffer.findSpace) && decide (s.comRxError = ERROR_SUCCESS))
          (decide (0 < s.txBuffer.findData) && decide (s.comTxError = ERROR_SUCCESS))
    | WaitResult.failed => LoopOutcome.exitWith 4
    | WaitResult.unknown _ => LoopOutcome.exitWith 5

/-- C1: the main loop evaluates the exit test before each wait, and exits
gracefully exactly when the spec's termination predicate holds (regardless of
what the subsequent wait would have returned). -/
theorem c1_graceful_exit_iff (s : CoordState) (w : WaitResult)
    (hrx : s.rxBuffer.WF) (htx : s.txBuffer.WF) :
    loopIter s w = LoopOutcome.exitGraceful ↔ specTermination s := by
  have h1 := s.rxBuffer.findData_eq_zero_iff hrx
  have h2 := s.txBuffer.findData_eq_zero_iff htx
  have key : codeExitTest s = true ↔ specTermination s := by
    unfold codeExitTest specTermination
    simp only [Bool.and_eq_true, Bool.or_eq_true, beq_iff_eq]
    rw [h1, h2]
  unfold loopIter
  by_cases hx : codeExitTest s = true
  · rw [if_pos hx]
    exact iff_of_true rfl (key.mp hx)
  · rw [if_neg hx]
    refine iff_of_false ?_ (fun hs => hx (key.mpr hs))
    cases w <;> dsimp only <;> (try split_ifs) <;> simp

/-- Witness state for C1: stdout done, receive queue empty, stdin done,
transmit queue empty, device still alive. -/
def coordAtEnd : CoordState :=
  { rxBuffer := RingBuffer.mk0 128, txBuffer := RingBuffer.mk0 128,
    comRxError := ERROR_SUCCESS, comTxError := ERROR_SUCCESS,
    comDone := false, stdinDone := true, stdoutDone := true }

/-- Witness for C1 at `coordAtEnd` and a timeout wait result. -/
theorem c1_graceful_exit_iff_witness :
    coordAtEnd.rxBuffer.WF ∧ coordAtEnd.txBuffer.WF
    ∧ (loopIter coordAtEnd WaitResult.timeout = LoopOutcome.exitGraceful
        ↔ specTermination coordAtEnd) :=
  ⟨by decide, by decide,
   c1_graceful_exit_iff coordAtEnd WaitResult.timeout (by decide) (by decide)⟩

/-- Result codes from `ReadFile`/`GetOverlappedResult` that mean the
operation is still in flight. -/
def isPendingCode (e : Nat) : Bool :=
  e == ERROR_IO_PENDING || e == ERROR_IO_INCOMPLETE

/-- Whether the body of the `comRx` while-loop runs again or returns. -/
inductive RxControl
  | returned
  | again
deriving DecidableEq, Repr

/-- Result of one iteration of the `comRx` body. -/
structure RxStepResult where
  comRxError : Nat
  comDone : Bool
  buffer : RingBuffer
  control : RxControl
deriving DecidableEq, Repr

/-- The polling half of the `comRx` body (lines 418-446): the `switch` on
`comRxError` after a possible `ReadFile`.  The pending/incomplete cases fall
through into the success case (calling `GetOverlappedResult`) unless the read
was just issued.  `ovErr` and `ovBytes` are the status and byte count
produced by `GetOverlappedResult`. -/
def comRxPoll (err1 : Nat) (buf : RingBuffer) (ovErr ovBytes : Nat)
    (justRead : Bool) : RxStepResult :=
  if isPendingCode err1 && justRead then ⟨err1, false, buf, RxControl.returned⟩
  else if isPendingCode err1 || err1 == ERROR_SUCCESS then
    if isPendingCode ovErr then ⟨ovErr, false, buf, RxControl.returned⟩
    else if ovErr == ERROR_SUCCESS then
      if ovBytes = 0 then ⟨ovErr, false, buf, RxControl.returned⟩
      else ⟨ovErr, false, (buf.addData ovBytes).1, RxControl.again⟩
    else ⟨ovErr, true, buf, RxControl.returned⟩
  else ⟨err1, true, buf, RxControl.returned⟩

/-- One iteration of the `comRx` body (lines 403-447): unless an operation is
already in flight, issue `ReadFile` for the contiguous free run (returning at
once if the receive queue has no room); `readErr` is the resulting status.
Then poll as in `comRxPoll`. -/
def comRxStep (err : Nat) (buf : RingBuffer) (readErr ovErr ovBytes : Nat) :
    RxStepResult :=
  if isPendingCode err then comRxPoll err buf ovErr ovBytes false
  else
    let toRead := buf.findSpace
    if toRead = 0 then ⟨err, false, buf, RxControl.returned⟩
    else comRxPoll readErr buf ovErr ovBytes true

/-- A coordinator state in which the receive direction has failed hard
(`comRxError = 31`, ERROR_GEN_FAILURE, so `comDone` is set), yet the receive
queue holds one byte (so the loop keeps running) and has plenty of space. -/
def coordFailedRx : CoordState :=
  { rxBuffer := ⟨129, 0, 1, true, true⟩, txBuffer := RingBuffer.mk0 128,
    comRxError := 31, comTxError := ERROR_SUCCESS,
    comDone := true, stdinDone := false, stdoutDone := false }

/-- C6 fails as stated: in `coordFailedRx` the receive queue has space and no
receive operation is pending (the last status, 31, is a hard failure, not
ERROR_IO_PENDING/ERROR_IO_INCOMPLETE), yet a timeout performs zero retry
attempts, because the code's guard requires `comRxError == ERROR_SUCCESS`. -/
theorem c6_timeout_retry_counterexample :
    loopIter coordFailedRx WaitResult.timeout = LoopOutcome.retry false false
    ∧ 0 < coordFailedRx.rxBuffer.findSpace
    ∧ coordFailedRx.comRxError ≠ ERROR_IO_PENDING
    ∧ coordFailedRx.comRxError ≠ ERROR_IO_INCOMPLETE := by
  decide

/-- C6 (amended): on a timeout the coordinator performs exactly one receive
retry attempt iff the receive queue has space and the last receive status is
`ERROR_SUCCESS` (the receive direction is idle — neither pending nor failed),
and exactly one transmit retry attempt iff the transmit queue has data and
the last transmit status is `ERROR_SUCCESS`; and a receive that completes
with zero bytes leaves status `ERROR_SUCCESS` with the buffer unchanged, so a
subsequent timeout (with the queue still having space) causes exactly one
retry attempt. -/
theorem c6_timeout_retry (s : CoordState) (buf : RingBuffer)
    (hx : codeExitTest s = false) (hsp : 0 < buf.findSpace) :
    (∃ r t, loopIter s WaitResult.timeout = LoopOutcome.retry r t
      ∧ (r = true ↔ (0 < s.rxBuffer.findSpace ∧ s.comRxError = ERROR_SUCCESS))
      ∧ (t = true ↔ (0 < s.txBuffer.findData ∧ s.comTxError = ERROR_SUCCESS)))
    ∧ comRxStep ERROR_SUCCESS buf ERROR_SUCCESS ERROR_SUCCESS 0
        = ⟨ERROR_SUCCESS, false, buf, RxControl.returned⟩ := by
  constructor
  · refine ⟨decide (0 < s.rxBuffer.findSpace) && decide (s.comRxError = ERROR_SUCCESS),
            decide (0 < s.txBuffer.findData) && decide (s.comTxError = ERROR_SUCCESS),
            ?_, ?_, ?_⟩
    · unfold loopIter
      rw [hx]
      simp
    · simp [Bool.and_eq_true, decide_eq_true_eq]
    · simp [Bool.and_eq_true, decide_eq_true_eq]
  · unfold comRxStep
    rw [show isPendingCode ERROR_SUCCESS = false from rfl]
    simp only [Bool.false_eq_true, if_false]
    rw [if_neg (by omega : ¬ buf.findSpace = 0)]
    unfold comRxPoll
    rfl

/-- An idle coordinator state with data buffered in both directions. -/
def coordIdle : CoordState :=
  { rxBuffer := ⟨129, 0, 1, true, true⟩, txBuffer := ⟨129, 0, 1, true, true⟩,
    comRxError := ERROR_SUCCESS, comTxError := ERROR_SUCCESS,
    comDone := false, stdinDone := false, stdoutDone := false }

/-- Witness for C6 (amended) at `coordIdle` and the initial receive buffer. -/
theorem c6_timeout_retry_witness :
    codeExitTest coordIdle = false ∧ 0 < (RingBuffer.mk0 128).findSpace
    ∧ ((∃ r t, loopIter coordIdle WaitResult.timeout = LoopOutcome.retry r t
        ∧ (r = true ↔ (0 < coordIdle.rxBuffer.findSpace
            ∧ coordIdle.comRxError = ERROR_SUCCESS))
        ∧ (t = true ↔ (0 < coordIdle.txBuffer.findData
            ∧ coordIdle.comTxError = ERROR_SUCCESS)))
      ∧ comRxStep ERROR_SUCCESS (RingBuffer.mk0 128) ERROR_SUCCESS ERROR_SUCCESS 0
          = ⟨ERROR_SUCCESS, false, RingBuffer.mk0 128, RxControl.returned⟩) :=
  ⟨by decide, by decide,
   c6_timeout_retry coordIdle (RingBuffer.mk0 128) (by decide) (by decide)⟩

/-- The signal sources the program creates.  `rxBuffer` carries bytes moving
from the COM port (the receive direction), `txBuffer` bytes moving to the COM
port (the transmit direction); each buffer's `notFull` event is its has-space
signal and `notEmpty` its has-data signal. -/
inductive WaitSource
  | comEventComplete
  | comRxComplete
  | comTxComplete
  | rxQueueHasSpace
  | rxQueueHasData
  | txQueueHasSpace
  | txQueueHasData
deriving DecidableEq, Repr

/-- The `waitables` array passed to `WaitForMultipleObjects` (lines 616-622):
`comEventOverlapped.hEvent`, `comRxOverlapped.hEvent`,
`comTxOverlapped.hEvent`, `rxBuffer.notFull` (receive queue has space),
`txBuffer.notEmpty` (transmit queue has data). -/
def waitables : List WaitSource :=
  [WaitSource.comEventComplete, WaitSource.comRxComplete,
   WaitSource.comTxComplete, WaitSource.rxQueueHasSpace,
   WaitSource.txQueueHasData]

/-- The timeout in milliseconds passed to `WaitForMultipleObjects`
(line 643). -/
def waitTimeoutMs : Nat := 2000

/-- The signal set named by the spec sentence, following its words:
device-event completion, receive-operation completion, transmit-operation
completion, "transmit queue has space", "receive queue has data". -/
def specWaitSources : List WaitSource :=
  [WaitSource.comEventComplete, WaitSource.comRxComplete,
   WaitSource.comTxComplete, WaitSource.txQueueHasSpace,
   WaitSource.rxQueueHasData]

/-- C8 fails as stated: the two queue signals in the `waitables` array are
`rxBuffer.notFull` ("receive queue has space") and `txBuffer.notEmpty`
("transmit queue has data") — the spec names "transmit queue has space" and
"receive queue has data", which are the signals the pump threads (not the
coordinator) wait on and are absent from the array. -/
theorem c8_wait_sources_counterexample :
    waitables ≠ specWaitSources
    ∧ ¬ WaitSource.txQueueHasSpace ∈ waitables
    ∧ ¬ WaitSource.rxQueueHasData ∈ waitables := by
  decide

/-- C8 (amended): the coordinator waits on exactly five signal sources —
device-event completion, receive-operation completion, transmit-operation
completion, "receive queue has space", and "transmit queue has data" — with a
bounded timeout of 2000 ms. -/
theorem c8_wait_sources :
    waitables
      = [WaitSource.comEventComplete, WaitSource.comRxComplete,
         WaitSource.comTxComplete, WaitSource.rxQueueHasSpace,
         WaitSource.txQueueHasData]
    ∧ waitables.length = 5
    ∧ WaitSource.rxQueueHasSpace ∈ waitables
    ∧ WaitSource.txQueueHasData ∈ waitables
    ∧ waitTimeoutMs = 2000 := by
  decide

/-- The outside-world results `main` encounters: the argument count, whether
`fopen` of the log file succeeds, whether `CreateFile` of the COM port
succeeds, the results of the four calls inside `setComm`, and what the
coordinator loop eventually produces (its exit code, and whether `comDone`
was set when it ended). -/
structure Env where
  argc : Nat
  logOpenOk : Bool
  createFileOk : Bool
  getCommStateOk : Bool
  setCommStateOk : Bool
  setCommTimeoutsOk : Bool
  setCommMaskOk : Bool
  loopExit : Nat
  comDoneAtExit : Bool
deriving DecidableEq, Repr

/-- `setComm` (lines 186-227): returns 2, 3, 4 or 5 according to the first of
`GetCommState` / `SetCommState` / `SetCommTimeouts` / `SetCommMask` that
fails, and 0 when all succeed. -/
def setComm (e : Env) : Nat :=
  if !e.getCommStateOk then 2
  else if !e.setCommStateOk then 3
  else if !e.setCommTimeoutsOk then 4
  else if !e.setCommMaskOk then 5
  else 0

/-- The startup and exit sequence of `main` (lines 571-694): too few
arguments exits with 1; a failed log-file open (only attempted when a log
argument is given) exits with 2; a failed `CreateFile` exits with 3; then
`setComm(comHandle)` is called as a bare statement with its result discarded
(line 608), the session runs, and the final status is the loop's exit code,
promoted to 6 when it is 0 and `comDone` is set (line 685).  Returns the exit
status and whether the session (threads and coordinator loop) was started. -/
def mainResult (e : Env) : Nat × Bool :=
  if e.argc < 2 then (1, false)
  else if 2 < e.argc && !e.logOpenOk then (2, false)
  else if !e.createFileOk then (3, false)
  else
    let _ := setComm e
    (if e.loopExit = 0 && e.comDoneAtExit then 6 else e.loopExit, true)

/-- C10: when the session reaches device configuration (arguments, log file
and `CreateFile` all fine) and `setComm` fails (returns non-zero, which
happens exactly when one of its four Win32 calls fails), `main` starts the
session anyway and produces the same exit status as it would had
configuration succeeded: the configuration failure never contributes to the
final exit status. -/
theorem c10_setcomm_result_ignored (e : Env) (h2 : 2 ≤ e.argc)
    (hl : e.logOpenOk = true) (hc : e.createFileOk = true)
    (hf : setComm e ≠ 0) :
    (e.getCommStateOk = false ∨ e.setCommStateOk = false
      ∨ e.setCommTimeoutsOk = false ∨ e.setCommMaskOk = false)
    ∧ (mainResult e).2 = true
    ∧ mainResult e
        = mainResult { e with getCommStateOk := true, setCommStateOk := true,
                              setCommTimeoutsOk := true, setCommMaskOk := true }
    ∧ (mainResult e).1
        = (if e.loopExit = 0 && e.comDoneAtExit then 6 else e.loopExit) := by
  refine ⟨?_, ?_, ?_, ?_⟩
  · unfold setComm at hf
    cases hg : e.getCommStateOk <;> cases hs : e.setCommStateOk
      <;> cases ht : e.setCommTimeoutsOk <;> cases hm : e.setCommMaskOk
      <;> simp_all
  all_goals
    unfold mainResult
    rw [if_neg (by omega : ¬ e.argc < 2)]
    try simp [hl, hc]

/-- Witness environment for C10: `GetCommState` fails, everything else
succeeds, the loop later ends gracefully without `comDone`. -/
def envCommFail : Env :=
  { argc := 2, logOpenOk := true, createFileOk := true,
    getCommStateOk := false, setCommStateOk := true,
    setCommTimeoutsOk := true, setCommMaskOk := true,
    loopExit := 0, comDoneAtExit := false }

/-- Witness for C10 at `envCommFail`. -/
theorem c10_setcomm_result_ignored_witness :
    2 ≤ envCommFail.argc ∧ envCommFail.logOpenOk = true
    ∧ envCommFail.createFileOk = true ∧ setComm envCommFail ≠ 0
    ∧ ((envCommFail.getCommStateOk = false ∨ envCommFail.setCommStateOk = false
        ∨ envCommFail.setCommTimeoutsOk = false ∨ envCommFail.setCommMaskOk = false)
      ∧ (mainResult envCommFail).2 = true
      ∧ mainResult envCommFail
          = mainResult { envCommFail with
              getCommStateOk := true, setCommStateOk := true,
              setCommTimeoutsOk := true, setCommMaskOk := true }
      ∧ (mainResult envCommFail).1
          = (if envCommFail.loopExit = 0 && envCommFail.comDoneAtExit then 6
             else envCommFail.loopExit)) :=
  ⟨by decide, by decide, by decide, by decide,
   c10_setcomm_result_ignored envCommFail (by decide) (by decide) (by decide)
     (by decide)⟩

end ComProxy
